import Mathlib

/-!
Verification of `spot_wrapper/spot_images.py`: a shallow embedding of the
image-request catalog and dispatch layer, and theorems about its observable
behaviour. The remote image client is modelled as a function from a request
batch to either a response list or the unsupported-pixel-format error; logger
output is modelled as an explicit list of log events.
-/

namespace SpotImagesModel

/-- Image format constants of image_pb2.Image used by the module. -/
inductive ImageFormat
  | FORMAT_RAW
  | FORMAT_JPEG
deriving DecidableEq, Repr

/-- Pixel-format constants of image_pb2.Image used by the module. -/
inductive PixelFormat
  | PIXEL_FORMAT_RGB_U8
  | PIXEL_FORMAT_GREYSCALE_U8
  | PIXEL_FORMAT_DEPTH_U16
deriving DecidableEq, Repr

/-- A request descriptor, as produced by `bosdyn.client.image.build_image_request`:
source name, optional image format, optional pixel format, quality percent
(the SDK default quality is 75; call sites that omit an argument pass the
default explicitly here). -/
structure ImageRequest where
  source : String
  image_format : Option ImageFormat
  pixel_format : Option PixelFormat
  quality_percent : Nat
deriving DecidableEq, Repr

def build_image_request (source : String) (fmt : Option ImageFormat)
    (pix : Option PixelFormat) (quality : Nat) : ImageRequest :=
  ⟨source, fmt, pix, quality⟩

/-- A log emission: level plus message text. -/
inductive LogEvent
  | info (msg : String)
  | error (msg : String)
deriving DecidableEq, Repr

/-- The list CAMERA_IMAGE_SOURCES from the source. -/
def CAMERA_IMAGE_SOURCES : List String :=
  ["frontleft_fisheye_image", "frontright_fisheye_image", "left_fisheye_image",
   "right_fisheye_image", "back_fisheye_image"]

/-- The list DEPTH_IMAGE_SOURCES from the source. -/
def DEPTH_IMAGE_SOURCES : List String :=
  ["frontleft_depth", "frontright_depth", "left_depth", "right_depth",
   "back_depth"]

/-- The list DEPTH_REGISTERED_IMAGE_SOURCES from the source. Note the order in the
source file: the `right` entry precedes the `left` entry. -/
def DEPTH_REGISTERED_IMAGE_SOURCES : List String :=
  ["frontleft_depth_in_visual_frame", "frontright_depth_in_visual_frame",
   "right_depth_in_visual_frame", "left_depth_in_visual_frame",
   "back_depth_in_visual_frame"]

/-- The table IMAGE_SOURCES_BY_CAMERA from the source, as an ordered association
list (Python dicts preserve insertion order). -/
def IMAGE_SOURCES_BY_CAMERA : List (String × List (String × String)) :=
  [("frontleft",
    [("visual", "frontleft_fisheye_image"),
     ("depth", "frontleft_depth"),
     ("depth_registered", "frontleft_depth_in_visual_frame")]),
   ("frontright",
    [("visual", "frontright_fisheye_image"),
     ("depth", "frontright_depth"),
     ("depth_registered", "frontright_depth_in_visual_frame")]),
   ("left",
    [("visual", "left_fisheye_image"),
     ("depth", "left_depth"),
     ("depth_registered", "left_depth_in_visual_frame")]),
   ("right",
    [("visual", "right_fisheye_image"),
     ("depth", "right_depth"),
     ("depth_registered", "right_depth_in_visual_frame")]),
   ("back",
    [("visual", "back_fisheye_image"),
     ("depth", "back_depth"),
     ("depth_registered", "back_depth_in_visual_frame")]),
   ("hand",
    [("visual", "hand_color_image"),
     ("depth", "hand_depth"),
     ("depth_registered", "hand_depth_in_hand_color_frame")])]

/-- The set IMAGE_TYPES from the source (a Python set literal; modelled in literal
order — no claim depends on the iteration order of the set). -/
def IMAGE_TYPES : List String := ["visual", "depth", "depth_registered"]

/-- The dataclass CameraSource: here `image_types = none` models Python None (defaulting to
all image types); `some l` models an explicit list. -/
structure CameraSource where
  camera_name : String
  image_types : Option (List String)
deriving DecidableEq, Repr

/-- The dataclass ImageEntry, with the opaque response payload of type `α`. -/
structure ImageEntry (α : Type) where
  camera_name : String
  image_type : String
  image_response : α
deriving DecidableEq, Repr

/-- The ImageBundle namedtuple. -/
structure ImageBundle (α : Type) where
  frontleft : α
  frontright : α
  left : α
  right : α
  back : α
deriving DecidableEq, Repr

/-- The ImageWithHandBundle namedtuple. -/
structure ImageWithHandBundle (α : Type) where
  frontleft : α
  frontright : α
  left : α
  right : α
  back : α
  hand : α
deriving DecidableEq, Repr

/-- Result of `get_images`: either the 5-slot or the 6-slot bundle. -/
inductive Bundle (α : Type)
  | body (b : ImageBundle α)
  | withHand (b : ImageWithHandBundle α)
deriving DecidableEq, Repr

/-- Outcome of one `ImageClient.get_image` call: a response list, or the
`UnsupportedPixelFormatRequestedError` exception. -/
inductive GetImageResult (α : Type)
  | ok (responses : List α)
  | unsupported (msg : String)

/-- The remote image client, modelled as a pure function from the request
batch to the call outcome. -/
def Client (α : Type) : Type := List ImageRequest → GetImageResult α

/-- Python exceptions that the module can let escape (`[0]` or `[i]` on a
too-short response list). -/
inductive PyExc
  | indexError
deriving DecidableEq, Repr

/-- Python `str.startswith`, modelled on the character lists of the two
strings. -/
def charsStartWith : List Char → List Char → Bool
  | [], _ => true
  | _ :: _, [] => false
  | p :: ps, c :: cs => p = c && charsStartWith ps cs

/-- Python startswith on strings, as the source calls it. -/
def strStartsWith (s pre : String) : Bool :=
  charsStartWith pre.data s.data

/-- One iteration of the inner `for image_type in image_types` loop that
builds `_image_requests_by_camera`: the request, plus the informational log
event when a body camera is switched to greyscale. -/
def tableRequest (camera : String) (rgb_cameras : Bool)
    (image_type source : String) : ImageRequest × Option LogEvent :=
  if strStartsWith image_type "depth" then
    (build_image_request source (some ImageFormat.FORMAT_RAW)
      (some PixelFormat.PIXEL_FORMAT_DEPTH_U16) 75, none)
  else if camera = "hand" ∨ rgb_cameras then
    (build_image_request source (some ImageFormat.FORMAT_JPEG)
      (some PixelFormat.PIXEL_FORMAT_RGB_U8) 75, none)
  else
    (build_image_request source (some ImageFormat.FORMAT_JPEG)
      (some PixelFormat.PIXEL_FORMAT_GREYSCALE_U8) 75,
     some (LogEvent.info
       ("Switching " ++ camera ++ ":" ++ image_type ++
        " to greyscale image format.")))

/-- The row of `_image_requests_by_camera` for one camera, with the log
events emitted while building it. -/
def buildCameraRow (rgb_cameras : Bool) (camera : String)
    (types : List (String × String)) :
    List (String × ImageRequest) × List LogEvent :=
  types.foldl
    (fun acc p =>
      let r := tableRequest camera rgb_cameras p.1 p.2
      (acc.1 ++ [(p.1, r.1)], acc.2 ++ r.2.toList))
    ([], [])

/-- The table `_image_requests_by_camera` (the `hand` row is skipped when there is no
arm), with the informational log events emitted while building it. -/
def buildTable (has_arm rgb_cameras : Bool) :
    List (String × List (String × ImageRequest)) × List LogEvent :=
  IMAGE_SOURCES_BY_CAMERA.foldl
    (fun acc p =>
      if p.1 = "hand" ∧ ¬has_arm then acc
      else
        let row := buildCameraRow rgb_cameras p.1 p.2
        (acc.1 ++ [(p.1, row.1)], acc.2 ++ row.2))
    ([], [])

/-- The state built by `SpotImages.__init__`, plus the log events emitted
during construction. The robot capability query `robot.has_arm()` and the
`rgb_cameras` flag are the two inputs that matter. -/
structure SpotImages where
  has_arm : Bool
  rgb_cameras : Bool
  camera_image_requests : List ImageRequest
  depth_image_requests : List ImageRequest
  depth_registered_image_requests : List ImageRequest
  image_requests_by_camera : List (String × List (String × ImageRequest))
  init_log : List LogEvent
deriving DecidableEq, Repr

/-- Constructor `SpotImages.__init__`. -/
def SpotImages.init (has_arm rgb_cameras : Bool) : SpotImages :=
  let cam := CAMERA_IMAGE_SOURCES.map
    (fun s => build_image_request s (some ImageFormat.FORMAT_RAW) none 75)
  let dep := DEPTH_IMAGE_SOURCES.map
    (fun s => build_image_request s (some ImageFormat.FORMAT_RAW) none 75)
  let depReg := DEPTH_REGISTERED_IMAGE_SOURCES.map
    (fun s => build_image_request s (some ImageFormat.FORMAT_RAW) none 75)
  let cam := if has_arm then
      cam ++ [build_image_request "hand_color_image"
        (some ImageFormat.FORMAT_JPEG) (some PixelFormat.PIXEL_FORMAT_RGB_U8) 50]
    else cam
  let dep := if has_arm then
      dep ++ [build_image_request "hand_depth" none
        (some PixelFormat.PIXEL_FORMAT_DEPTH_U16) 75]
    else dep
  let depReg := if has_arm then
      depReg ++ [build_image_request "hand_depth_in_hand_color_frame" none
        (some PixelFormat.PIXEL_FORMAT_DEPTH_U16) 75]
    else depReg
  let tbl := buildTable has_arm rgb_cameras
  ⟨has_arm, rgb_cameras, cam, dep, depReg, tbl.1, tbl.2⟩

/-- Shared shape of the five body single-image accessors: one ad hoc request,
`[0]` on the response list, `UnsupportedPixelFormatRequestedError` caught,
logged and turned into `None`. -/
def bodyAccessor {α : Type} (req : ImageRequest) (client : Client α) :
    Except PyExc (Option α) × List LogEvent :=
  match client [req] with
  | GetImageResult.ok [] => (Except.error PyExc.indexError, [])
  | GetImageResult.ok (r :: _) => (Except.ok (some r), [])
  | GetImageResult.unsupported m => (Except.ok none, [LogEvent.error m])

def get_frontleft_rgb_image {α : Type} (_s : SpotImages) (client : Client α) :
    Except PyExc (Option α) × List LogEvent :=
  bodyAccessor (build_image_request "frontleft_fisheye_image"
    (some ImageFormat.FORMAT_RAW) none 75) client

def get_frontright_rgb_image {α : Type} (_s : SpotImages) (client : Client α) :
    Except PyExc (Option α) × List LogEvent :=
  bodyAccessor (build_image_request "frontright_fisheye_image"
    (some ImageFormat.FORMAT_RAW) none 75) client

def get_left_rgb_image {α : Type} (_s : SpotImages) (client : Client α) :
    Except PyExc (Option α) × List LogEvent :=
  bodyAccessor (build_image_request "left_fisheye_image"
    (some ImageFormat.FORMAT_RAW) none 75) client

def get_right_rgb_image {α : Type} (_s : SpotImages) (client : Client α) :
    Except PyExc (Option α) × List LogEvent :=
  bodyAccessor (build_image_request "right_fisheye_image"
    (some ImageFormat.FORMAT_RAW) none 75) client

def get_back_rgb_image {α : Type} (_s : SpotImages) (client : Client α) :
    Except PyExc (Option α) × List LogEvent :=
  bodyAccessor (build_image_request "back_fisheye_image"
    (some ImageFormat.FORMAT_RAW) none 75) client

/-- Accessor `get_hand_rgb_image`: returns `None` at once when there is no arm; the
bare except clause of the source for this accessor returns None without logging. -/
def get_hand_rgb_image {α : Type} (s : SpotImages) (client : Client α) :
    Except PyExc (Option α) × List LogEvent :=
  if ¬s.has_arm then (Except.ok none, [])
  else
    match client [build_image_request "hand_color_image" none
        (some PixelFormat.PIXEL_FORMAT_RGB_U8) 50] with
    | GetImageResult.ok [] => (Except.error PyExc.indexError, [])
    | GetImageResult.ok (r :: _) => (Except.ok (some r), [])
    | GetImageResult.unsupported _ => (Except.ok none, [])

/-- Method `get_images`: one batched call, then the response list is repackaged
positionally into the 6-slot bundle (arm) or the 5-slot bundle (no arm). -/
def get_images {α : Type} (s : SpotImages) (client : Client α)
    (image_requests : List ImageRequest) :
    Except PyExc (Option (Bundle α)) × List LogEvent :=
  match client image_requests with
  | GetImageResult.unsupported m => (Except.ok none, [LogEvent.error m])
  | GetImageResult.ok rs =>
    if s.has_arm then
      match rs.get? 0, rs.get? 1, rs.get? 2, rs.get? 3, rs.get? 4, rs.get? 5 with
      | some a, some b, some c, some d, some e, some f =>
        (Except.ok (some (Bundle.withHand ⟨a, b, c, d, e, f⟩)), [])
      | _, _, _, _, _, _ => (Except.error PyExc.indexError, [])
    else
      match rs.get? 0, rs.get? 1, rs.get? 2, rs.get? 3, rs.get? 4 with
      | some a, some b, some c, some d, some e =>
        (Except.ok (some (Bundle.body ⟨a, b, c, d, e⟩)), [])
      | _, _, _, _, _ => (Except.error PyExc.indexError, [])

def get_camera_images {α : Type} (s : SpotImages) (client : Client α) :
    Except PyExc (Option (Bundle α)) × List LogEvent :=
  get_images s client s.camera_image_requests

def get_depth_images {α : Type} (s : SpotImages) (client : Client α) :
    Except PyExc (Option (Bundle α)) × List LogEvent :=
  get_images s client s.depth_image_requests

def get_depth_registered_images {α : Type} (s : SpotImages) (client : Client α) :
    Except PyExc (Option (Bundle α)) × List LogEvent :=
  get_images s client s.depth_registered_image_requests

/-- Lookup `self._image_requests_by_camera[camera][image_type]`, with `none` for
a `KeyError` on either key. -/
def lookupTable (tbl : List (String × List (String × ImageRequest)))
    (camera image_type : String) : Option ImageRequest :=
  match tbl.lookup camera with
  | none => none
  | some row => row.lookup image_type

/-- Statement `image_types = item.image_types; if image_types is None: image_types =
IMAGE_TYPES`. -/
def effectiveTypes (item : CameraSource) : List String :=
  match item.image_types with
  | none => IMAGE_TYPES
  | some l => l

/-- The inner `for image_type in image_types` loop of
`get_images_by_cameras`: expands one camera into its requests and
(camera, type) tags, stopping at the first `KeyError` with the logged error. -/
def expandItem (tbl : List (String × List (String × ImageRequest)))
    (camera : String) :
    List String → Except LogEvent (List ImageRequest × List (String × String))
  | [] => Except.ok ([], [])
  | ty :: rest =>
    match lookupTable tbl camera ty with
    | none => Except.error (LogEvent.error
        ("Unexpected camera name " ++ camera ++ " or image type " ++ ty))
    | some req =>
      match expandItem tbl camera rest with
      | Except.error e => Except.error e
      | Except.ok p => Except.ok (req :: p.1, (camera, ty) :: p.2)

/-- The outer `for item in camera_sources` loop of `get_images_by_cameras`:
duplicate camera check against `cameras_specified` (here `seen`), then the
inner expansion; the first failure aborts with its logged error. -/
def buildLoop (tbl : List (String × List (String × ImageRequest)))
    (seen : List String) :
    List CameraSource →
    Except LogEvent (List ImageRequest × List (String × String))
  | [] => Except.ok ([], [])
  | item :: rest =>
    if item.camera_name ∈ seen then
      Except.error (LogEvent.error
        ("Duplicated camera source for camera " ++ item.camera_name))
    else
      match expandItem tbl item.camera_name (effectiveTypes item) with
      | Except.error e => Except.error e
      | Except.ok p =>
        match buildLoop tbl (item.camera_name :: seen) rest with
        | Except.error e => Except.error e
        | Except.ok q => Except.ok (p.1 ++ q.1, p.2 ++ q.2)

/-- The final `for i, (camera_name, image_type) in enumerate(source_types)`
loop: pairs tag `i` with `image_responses[i]`; a too-short response list
raises `IndexError`. -/
def assembleEntries {α : Type} (rs : List α) :
    List (String × String) → Nat → Except PyExc (List (ImageEntry α))
  | [], _ => Except.ok []
  | p :: rest, i =>
    match rs.get? i with
    | none => Except.error PyExc.indexError
    | some r =>
      match assembleEntries rs rest (i + 1) with
      | Except.error e => Except.error e
      | Except.ok l => Except.ok (⟨p.1, p.2, r⟩ :: l)

/-- Method `get_images_by_cameras`. -/
def get_images_by_cameras {α : Type} (s : SpotImages) (client : Client α)
    (camera_sources : List CameraSource) :
    Except PyExc (Option (List (ImageEntry α))) × List LogEvent :=
  match buildLoop s.image_requests_by_camera [] camera_sources with
  | Except.error e => (Except.ok none, [e])
  | Except.ok p =>
    match client p.1 with
    | GetImageResult.unsupported _ =>
      (Except.ok none,
       [LogEvent.error
         ("UnsupportedPixelFormatRequestedError. " ++
          "Likely pixel_format is set wrong for some image request")])
    | GetImageResult.ok rs =>
      match assembleEntries rs p.2 0 with
      | Except.error e => (Except.error e, [])
      | Except.ok l => (Except.ok (some l), [])

/-- A client that always answers with the fixed response list `rs`. -/
def constClient {α : Type} (rs : List α) : Client α :=
  fun _ => GetImageResult.ok rs

/-- A client that always raises the unsupported-pixel-format error. -/
def failClient {α : Type} (msg : String) : Client α :=
  fun _ => GetImageResult.unsupported msg

/-- A client that answers every request with its own source name, making
positional routing observable. -/
def echoClient : Client String :=
  fun reqs => GetImageResult.ok (reqs.map ImageRequest.source)

end SpotImagesModel
namespace SpotImagesModel

/-- C1: the claim states that for each of the three precomputed bundled
request lists the descriptor at position i targets the camera named by the
i-th bundle slot (frontleft, frontright, left, right, back), and in
particular that the depth-registered list is ordered frontleft, frontright,
left, right, back. The code satisfies this for the visual and depth lists
but not for the depth-registered list, whose `right` entry precedes its
`left` entry; consequently the bundle slot `left` receives the right
depth-registered response of the right camera and vice versa. -/
theorem C1_depth_registered_list_misordered :
    (SpotImages.init false true).camera_image_requests.map ImageRequest.source
        = CAMERA_IMAGE_SOURCES ∧
    (SpotImages.init false true).depth_image_requests.map ImageRequest.source
        = DEPTH_IMAGE_SOURCES ∧
    (SpotImages.init false true).depth_registered_image_requests.map ImageRequest.source
        = ["frontleft_depth_in_visual_frame", "frontright_depth_in_visual_frame",
           "right_depth_in_visual_frame", "left_depth_in_visual_frame",
           "back_depth_in_visual_frame"] ∧
    get_depth_registered_images (SpotImages.init false true) echoClient
      = (Except.ok (some (Bundle.body
          { frontleft := "frontleft_depth_in_visual_frame"
            frontright := "frontright_depth_in_visual_frame"
            left := "right_depth_in_visual_frame"
            right := "left_depth_in_visual_frame"
            back := "back_depth_in_visual_frame" })), []) :=
  ⟨rfl, rfl, rfl, rfl⟩

/-- C2 counterexample: with an arm present, when the client raises the
unsupported-pixel-format error the hand-camera accessor returns an empty
result but emits NO log event (the except clause of the source for this one
accessor does not call the logger), refuting the claim that every accessor
logs the condition. -/
theorem C2_hand_accessor_does_not_log :
    get_hand_rgb_image (SpotImages.init true true)
        (failClient "unsupported pixel format" : Client Nat)
      = (Except.ok none, []) := rfl

/-- C5: in the per-camera-per-modality table, the pixel
format is RGB when the camera is the hand camera or the rgb preference is
on, and greyscale otherwise; every depth and depth-registered request uses
the 16-bit depth pixel format; and when the rgb preference is off exactly
one informational log event naming each body camera is emitted (five
events, one per body camera, none for the hand), while with the preference
on no such event is emitted. -/
theorem C5_table_pixel_formats_and_greyscale_log (has_arm rgb : Bool) :
    (∀ row ∈ (SpotImages.init has_arm rgb).image_requests_by_camera,
      ∀ p ∈ row.2,
        (p.1 = "visual" →
          p.2.pixel_format = some (if row.1 = "hand" ∨ rgb then
            PixelFormat.PIXEL_FORMAT_RGB_U8
          else PixelFormat.PIXEL_FORMAT_GREYSCALE_U8)) ∧
        ((p.1 = "depth" ∨ p.1 = "depth_registered") →
          p.2.pixel_format = some PixelFormat.PIXEL_FORMAT_DEPTH_U16)) ∧
    (SpotImages.init has_arm rgb).init_log =
      (if rgb then [] else
        [LogEvent.info "Switching frontleft:visual to greyscale image format.",
         LogEvent.info "Switching frontright:visual to greyscale image format.",
         LogEvent.info "Switching left:visual to greyscale image format.",
         LogEvent.info "Switching right:visual to greyscale image format.",
         LogEvent.info "Switching back:visual to greyscale image format."]) := by
  cases has_arm <;> cases rgb <;> exact ⟨by decide, rfl⟩

/-- C6: the three catalog lists have length 5 without an arm and 6 with an
arm, and the per-camera table has a `hand` row exactly when the robot has
an arm. -/
theorem C6_catalog_sizes (has_arm rgb : Bool) :
    (SpotImages.init has_arm rgb).camera_image_requests.length
        = (if has_arm then 6 else 5) ∧
    (SpotImages.init has_arm rgb).depth_image_requests.length
        = (if has_arm then 6 else 5) ∧
    (SpotImages.init has_arm rgb).depth_registered_image_requests.length
        = (if has_arm then 6 else 5) ∧
    ((SpotImages.init has_arm rgb).image_requests_by_camera.lookup "hand").isSome
        = has_arm := by
  cases has_arm <;> cases rgb <;> exact ⟨rfl, rfl, rfl, rfl⟩

/-- C7: when the client returns exactly the expected number of responses,
the bundled fetch returns the 6-slot bundle (arm) or the 5-slot bundle (no
arm) whose named slots equal the responses in positional order: frontleft
is the 1st, frontright the 2nd, left the 3rd, right the 4th, back the 5th,
hand the 6th. -/
theorem C7_bundle_positional {α : Type} (rgb : Bool) (reqs : List ImageRequest)
    (a b c d e f : α) :
    get_images (SpotImages.init true rgb) (constClient [a, b, c, d, e, f]) reqs
      = (Except.ok (some (Bundle.withHand ⟨a, b, c, d, e, f⟩)), []) ∧
    get_images (SpotImages.init false rgb) (constClient [a, b, c, d, e]) reqs
      = (Except.ok (some (Bundle.body ⟨a, b, c, d, e⟩)), []) :=
  ⟨rfl, rfl⟩

/-- C8: without an arm, the hand accessor returns an empty result and its
outcome does not depend on the client at all (no remote call is made); with
an arm, when the client returns a response list the accessor returns its
first element. -/
theorem C8_hand_accessor {α : Type} (rgb : Bool) (r : α) (rest : List α)
    (c₁ c₂ : Client α) :
    get_hand_rgb_image (SpotImages.init false rgb) c₁ = (Except.ok none, []) ∧
    get_hand_rgb_image (SpotImages.init false rgb) c₁
      = get_hand_rgb_image (SpotImages.init false rgb) c₂ ∧
    get_hand_rgb_image (SpotImages.init true rgb) (constClient (r :: rest))
      = (Except.ok (some r), []) :=
  ⟨rfl, rfl, rfl⟩

/-- C10: the rgb-cameras preference does not affect the three bundled
catalog request lists, and every single-image accessor (including the hand
accessor) behaves identically under either setting of the flag for any
client. -/
theorem C10_rgb_flag_only_affects_table (has_arm : Bool) (client : Client Nat) :
    (SpotImages.init has_arm true).camera_image_requests
      = (SpotImages.init has_arm false).camera_image_requests ∧
    (SpotImages.init has_arm true).depth_image_requests
      = (SpotImages.init has_arm false).depth_image_requests ∧
    (SpotImages.init has_arm true).depth_registered_image_requests
      = (SpotImages.init has_arm false).depth_registered_image_requests ∧
    get_frontleft_rgb_image (SpotImages.init has_arm true) client
      = get_frontleft_rgb_image (SpotImages.init has_arm false) client ∧
    get_frontright_rgb_image (SpotImages.init has_arm true) client
      = get_frontright_rgb_image (SpotImages.init has_arm false) client ∧
    get_left_rgb_image (SpotImages.init has_arm true) client
      = get_left_rgb_image (SpotImages.init has_arm false) client ∧
    get_right_rgb_image (SpotImages.init has_arm true) client
      = get_right_rgb_image (SpotImages.init has_arm false) client ∧
    get_back_rgb_image (SpotImages.init has_arm true) client
      = get_back_rgb_image (SpotImages.init has_arm false) client ∧
    get_hand_rgb_image (SpotImages.init has_arm true) client
      = get_hand_rgb_image (SpotImages.init has_arm false) client := by
  cases has_arm <;> exact ⟨rfl, rfl, rfl, rfl, rfl, rfl, rfl, rfl, rfl⟩

end SpotImagesModel
namespace SpotImagesModel

/-- Any error aborting the inner expansion loop is an error-level log event. -/
theorem expandItem_error_shape
    (tbl : List (String × List (String × ImageRequest))) (camera : String) :
    ∀ (tys : List String) (e : LogEvent),
      expandItem tbl camera tys = Except.error e → ∃ m, e = LogEvent.error m := by
  intro tys
  induction tys with
  | nil => intro e h; simp [expandItem] at h
  | cons ty rest ih =>
    intro e h
    simp only [expandItem] at h
    cases hl : lookupTable tbl camera ty with
    | none =>
      rw [hl] at h
      injection h with h
      exact ⟨_, h.symm⟩
    | some req =>
      rw [hl] at h
      cases hr : expandItem tbl camera rest with
      | error e2 =>
        rw [hr] at h
        injection h with h
        exact h ▸ ih e2 hr
      | ok p =>
        rw [hr] at h
        cases h

/-- Any error aborting the outer validation loop is an error-level log
event. -/
theorem buildLoop_error_shape
    (tbl : List (String × List (String × ImageRequest))) :
    ∀ (srcs : List CameraSource) (seen : List String) (e : LogEvent),
      buildLoop tbl seen srcs = Except.error e → ∃ m, e = LogEvent.error m := by
  intro srcs
  induction srcs with
  | nil => intro seen e h; simp [buildLoop] at h
  | cons item rest ih =>
    intro seen e h
    simp only [buildLoop] at h
    by_cases hmem : item.camera_name ∈ seen
    · rw [if_pos hmem] at h
      injection h with h
      exact ⟨_, h.symm⟩
    · rw [if_neg hmem] at h
      cases hexp : expandItem tbl item.camera_name (effectiveTypes item) with
      | error e2 =>
        rw [hexp] at h
        injection h with h
        exact h ▸ expandItem_error_shape tbl _ _ e2 hexp
      | ok p =>
        rw [hexp] at h
        cases hb : buildLoop tbl (item.camera_name :: seen) rest with
        | error e2 =>
          rw [hb] at h
          injection h with h
          exact h ▸ ih (item.camera_name :: seen) e2 hb
        | ok q =>
          rw [hb] at h
          cases h

/-- When the inner expansion loop succeeds, its tag list names the camera
with each requested type in order, its request list pairs up positionally
with the table entries, and every requested pair is present in the table. -/
theorem expandItem_ok
    (tbl : List (String × List (String × ImageRequest))) (camera : String) :
    ∀ (tys : List String) (p : List ImageRequest × List (String × String)),
      expandItem tbl camera tys = Except.ok p →
      p.2 = tys.map (fun ty => (camera, ty)) ∧
      p.2.map (fun q => lookupTable tbl q.1 q.2) = p.1.map some ∧
      ∀ ty ∈ tys, (lookupTable tbl camera ty).isSome := by
  intro tys
  induction tys with
  | nil =>
    intro p h
    simp only [expandItem] at h
    injection h with h
    subst h
    simp
  | cons ty rest ih =>
    intro p h
    simp only [expandItem] at h
    cases hl : lookupTable tbl camera ty with
    | none => rw [hl] at h; cases h
    | some req =>
      rw [hl] at h
      cases hr : expandItem tbl camera rest with
      | error e2 => rw [hr] at h; cases h
      | ok q =>
        rw [hr] at h
        injection h with h
        subst h
        obtain ⟨h1, h2, h3⟩ := ih q hr
        refine ⟨by simp [h1], by simp [h2, hl], ?_⟩
        intro t ht
        rcases List.mem_cons.mp ht with rfl | ht
        · simp [hl]
        · exact h3 t ht

/-- When the outer validation loop succeeds: the camera names are pairwise
distinct and disjoint from the already-seen set, every requested
(camera, type) pair is present in the table, the tag list is the in-order
expansion of the selectors, and the request list pairs up positionally with
the table entries. -/
theorem buildLoop_ok
    (tbl : List (String × List (String × ImageRequest))) :
    ∀ (srcs : List CameraSource) (seen : List String)
      (p : List ImageRequest × List (String × String)),
      buildLoop tbl seen srcs = Except.ok p →
      (srcs.map CameraSource.camera_name).Nodup ∧
      (∀ item ∈ srcs, item.camera_name ∉ seen) ∧
      (∀ item ∈ srcs, ∀ ty ∈ effectiveTypes item,
        (lookupTable tbl item.camera_name ty).isSome) ∧
      p.2 = srcs.flatMap (fun item =>
        (effectiveTypes item).map (fun ty => (item.camera_name, ty))) ∧
      p.2.map (fun q => lookupTable tbl q.1 q.2) = p.1.map some := by
  intro srcs
  induction srcs with
  | nil =>
    intro seen p h
    simp only [buildLoop] at h
    injection h with h
    subst h
    simp
  | cons item rest ih =>
    intro seen p h
    simp only [buildLoop] at h
    by_cases hmem : item.camera_name ∈ seen
    · rw [if_pos hmem] at h; cases h
    · rw [if_neg hmem] at h
      cases hexp : expandItem tbl item.camera_name (effectiveTypes item) with
      | error e2 => rw [hexp] at h; cases h
      | ok q =>
        rw [hexp] at h
        cases hb : buildLoop tbl (item.camera_name :: seen) rest with
        | error e2 => rw [hb] at h; cases h
        | ok r =>
          rw [hb] at h
          injection h with h
          subst h
          obtain ⟨hq1, hq2, hq3⟩ := expandItem_ok tbl item.camera_name _ q hexp
          obtain ⟨hr1, hr2, hr3, hr4, hr5⟩ := ih (item.camera_name :: seen) r hb
          refine ⟨?_, ?_, ?_, ?_, ?_⟩
          · rw [List.map_cons, List.nodup_cons]
            refine ⟨?_, hr1⟩
            intro hin
            obtain ⟨it, hit, hname⟩ := List.mem_map.mp hin
            exact (hr2 it hit) (hname ▸ List.mem_cons_self _ _)
          · intro it hit
            rcases List.mem_cons.mp hit with rfl | hit
            · exact hmem
            · intro hseen
              exact (hr2 it hit) (List.mem_cons_of_mem _ hseen)
          · intro it hit
            rcases List.mem_cons.mp hit with rfl | hit
            · exact hq3
            · exact hr3 it hit
          · simp [List.flatMap_cons, hq1, hr4]
          · simp only [List.map_append, hq2, hr5]

end SpotImagesModel
namespace SpotImagesModel

/-- When the response list is long enough, the final assembly loop succeeds
and pairs the i-th tag with the i-th response. -/
theorem assembleEntries_ok {α : Type} (rs : List α) :
    ∀ (sts : List (String × String)) (i : Nat), i + sts.length ≤ rs.length →
      assembleEntries rs sts i =
        Except.ok ((sts.zip (rs.drop i)).map
          (fun q => ⟨q.1.1, q.1.2, q.2⟩)) := by
  intro sts
  induction sts with
  | nil => intro i h; simp [assembleEntries]
  | cons p rest ih =>
    intro i h
    simp only [List.length_cons] at h
    have hi : i < rs.length := by omega
    have hrec := ih (i + 1) (by omega)
    simp only [assembleEntries, List.get?_eq_getElem?, List.getElem?_eq_getElem hi,
      hrec, List.drop_eq_getElem_cons hi, List.zip_cons_cons, List.map_cons]

/-- The list flatMap only depends on the values of the function at members. -/
theorem flatMap_congr_mem {α β : Type} :
    ∀ (l : List α) (f g : α → List β), (∀ a ∈ l, f a = g a) →
      l.flatMap f = l.flatMap g := by
  intro l
  induction l with
  | nil => intro f g _; rfl
  | cons a rest ih =>
    intro f g h
    simp only [List.flatMap_cons, h a (List.mem_cons_self a rest),
      ih f g (fun b hb => h b (List.mem_cons_of_mem a hb))]

/-- A selector with an explicit modality list expands to exactly that
list. -/
theorem effectiveTypes_of_explicit (item : CameraSource)
    (h : item.image_types ≠ none) :
    effectiveTypes item = item.image_types.getD [] := by
  cases hi : item.image_types with
  | none => exact absurd hi h
  | some l => simp [effectiveTypes, hi]

/-- C2 (amended): when the remote client raises the unsupported-pixel-format
error, every accessor converts it to an empty result and never re-raises it;
the five body single-image accessors, the bundled fetches and the selective
multi-camera fetch additionally log the condition as an error, but the
hand-camera accessor swallows the error without logging anything. -/
theorem C2_error_policy (has_arm rgb : Bool) (msg : String)
    (reqs : List ImageRequest) (srcs : List CameraSource) :
    get_frontleft_rgb_image (SpotImages.init has_arm rgb)
        (failClient msg : Client Nat) = (Except.ok none, [LogEvent.error msg]) ∧
    get_frontright_rgb_image (SpotImages.init has_arm rgb)
        (failClient msg : Client Nat) = (Except.ok none, [LogEvent.error msg]) ∧
    get_left_rgb_image (SpotImages.init has_arm rgb)
        (failClient msg : Client Nat) = (Except.ok none, [LogEvent.error msg]) ∧
    get_right_rgb_image (SpotImages.init has_arm rgb)
        (failClient msg : Client Nat) = (Except.ok none, [LogEvent.error msg]) ∧
    get_back_rgb_image (SpotImages.init has_arm rgb)
        (failClient msg : Client Nat) = (Except.ok none, [LogEvent.error msg]) ∧
    get_hand_rgb_image (SpotImages.init has_arm rgb)
        (failClient msg : Client Nat) = (Except.ok none, []) ∧
    get_images (SpotImages.init has_arm rgb)
        (failClient msg : Client Nat) reqs = (Except.ok none, [LogEvent.error msg]) ∧
    get_camera_images (SpotImages.init has_arm rgb)
        (failClient msg : Client Nat) = (Except.ok none, [LogEvent.error msg]) ∧
    get_depth_images (SpotImages.init has_arm rgb)
        (failClient msg : Client Nat) = (Except.ok none, [LogEvent.error msg]) ∧
    get_depth_registered_images (SpotImages.init has_arm rgb)
        (failClient msg : Client Nat) = (Except.ok none, [LogEvent.error msg]) ∧
    (∃ m, get_images_by_cameras (SpotImages.init has_arm rgb)
        (failClient msg : Client Nat) srcs = (Except.ok none, [LogEvent.error m])) := by
  refine ⟨rfl, rfl, rfl, rfl, rfl, ?_, rfl, rfl, rfl, rfl, ?_⟩
  · cases has_arm <;> rfl
  · cases hb : buildLoop (SpotImages.init has_arm rgb).image_requests_by_camera
        [] srcs with
    | error e =>
      obtain ⟨m, hm⟩ := buildLoop_error_shape _ srcs [] e hb
      exact ⟨m, by simp [get_images_by_cameras, hb, hm, failClient]⟩
    | ok p =>
      exact ⟨"UnsupportedPixelFormatRequestedError. " ++
        "Likely pixel_format is set wrong for some image request",
        by simp [get_images_by_cameras, hb, failClient]⟩

/-- C3: if any camera identity repeats across selectors, or any requested
(camera, modality) pair is absent from the lookup table, the selective
fetch logs exactly one error, returns an empty result, and its outcome does
not depend on the remote client at all (no remote call is made). -/
theorem C3_selective_fetch_validation (has_arm rgb : Bool)
    (srcs : List CameraSource)
    (h : ¬ (srcs.map CameraSource.camera_name).Nodup ∨
      ∃ item ∈ srcs, ∃ ty ∈ effectiveTypes item,
        lookupTable (SpotImages.init has_arm rgb).image_requests_by_camera
          item.camera_name ty = none)
    (c₁ c₂ : Client Nat) :
    (∃ m, get_images_by_cameras (SpotImages.init has_arm rgb) c₁ srcs
        = (Except.ok none, [LogEvent.error m])) ∧
    get_images_by_cameras (SpotImages.init has_arm rgb) c₁ srcs
      = get_images_by_cameras (SpotImages.init has_arm rgb) c₂ srcs := by
  have hfail : ∃ e, buildLoop
      (SpotImages.init has_arm rgb).image_requests_by_camera [] srcs
      = Except.error e := by
    cases hb : buildLoop (SpotImages.init has_arm rgb).image_requests_by_camera
        [] srcs with
    | error e => exact ⟨e, rfl⟩
    | ok p =>
      obtain ⟨hnodup, _, hlk, _, _⟩ := buildLoop_ok _ srcs [] p hb
      rcases h with h | ⟨item, hitem, ty, hty, hnone⟩
      · exact absurd hnodup h
      · have hsome := hlk item hitem ty hty
        rw [hnone] at hsome
        simp at hsome
  obtain ⟨e, he⟩ := hfail
  obtain ⟨m, hm⟩ := buildLoop_error_shape _ srcs [] e he
  refine ⟨⟨m, ?_⟩, ?_⟩
  · simp [get_images_by_cameras, he, hm]
  · simp [get_images_by_cameras, he]

/-- C3 witness: a duplicated camera identity is rejected with an error. -/
theorem C3_witness :
    ∃ m, get_images_by_cameras (SpotImages.init false true)
        (constClient ([] : List Nat))
        [⟨"frontleft", some []⟩, ⟨"frontleft", some []⟩]
      = (Except.ok none, [LogEvent.error m]) :=
  (C3_selective_fetch_validation false true
    [⟨"frontleft", some []⟩, ⟨"frontleft", some []⟩]
    (Or.inl (by decide))
    (constClient []) (constClient [])).1

end SpotImagesModel
namespace SpotImagesModel

/-- C4: for a selector list in which every selector gives an explicit
modality list, once validation succeeds the selective fetch sends one
request per (camera, modality) pair — selectors in sequence order, each
expanded modality-by-modality in the listed order, each request being the
table entry for its pair — and, when the client returns one response per
request, the result is one record per request in the same order, tagging
camera and modality onto the response at the same position. -/
theorem C4_selective_fetch_order (has_arm rgb : Bool)
    (srcs : List CameraSource)
    (hexp : ∀ item ∈ srcs, item.image_types ≠ none)
    (p : List ImageRequest × List (String × String))
    (hok : buildLoop (SpotImages.init has_arm rgb).image_requests_by_camera
      [] srcs = Except.ok p)
    (rs : List Nat) (hlen : rs.length = p.1.length) :
    p.2 = srcs.flatMap (fun item =>
      (item.image_types.getD []).map (fun ty => (item.camera_name, ty))) ∧
    p.2.map (fun q =>
      lookupTable (SpotImages.init has_arm rgb).image_requests_by_camera
        q.1 q.2) = p.1.map some ∧
    p.1.length = p.2.length ∧
    get_images_by_cameras (SpotImages.init has_arm rgb) (constClient rs) srcs
      = (Except.ok (some ((p.2.zip rs).map
          (fun q => ⟨q.1.1, q.1.2, q.2⟩))), []) := by
  obtain ⟨_, _, _, hsts, hreqs⟩ := buildLoop_ok _ srcs [] p hok
  have hstslen : p.1.length = p.2.length := by
    have := congrArg List.length hreqs
    simpa using this.symm
  have hsts2 : p.2 = srcs.flatMap (fun item =>
      (item.image_types.getD []).map (fun ty => (item.camera_name, ty))) := by
    rw [hsts]
    exact flatMap_congr_mem srcs _ _ (fun item hitem => by
      rw [effectiveTypes_of_explicit item (hexp item hitem)])
  refine ⟨hsts2, hreqs, hstslen, ?_⟩
  have hassem := assembleEntries_ok rs p.2 0 (by omega)
  simp only [get_images_by_cameras, hok, constClient, hassem, List.drop_zero]

/-- C4 witness: selectors [(frontleft, [visual]), (back, [depth,
depth_registered])] yield three requests and three records in that order,
tagged with their camera and modality and the positionally matching
response. -/
theorem C4_witness :
    get_images_by_cameras (SpotImages.init false true)
        (constClient [10, 20, 30])
        [⟨"frontleft", some ["visual"]⟩,
         ⟨"back", some ["depth", "depth_registered"]⟩]
      = (Except.ok (some
          [⟨"frontleft", "visual", 10⟩,
           ⟨"back", "depth", 20⟩,
           ⟨"back", "depth_registered", 30⟩]), []) := by
  have h := C4_selective_fetch_order false true
    [⟨"frontleft", some ["visual"]⟩,
     ⟨"back", some ["depth", "depth_registered"]⟩]
    (by decide)
    ([build_image_request "frontleft_fisheye_image"
        (some ImageFormat.FORMAT_JPEG) (some PixelFormat.PIXEL_FORMAT_RGB_U8) 75,
      build_image_request "back_depth"
        (some ImageFormat.FORMAT_RAW) (some PixelFormat.PIXEL_FORMAT_DEPTH_U16) 75,
      build_image_request "back_depth_in_visual_frame"
        (some ImageFormat.FORMAT_RAW) (some PixelFormat.PIXEL_FORMAT_DEPTH_U16) 75],
     [("frontleft", "visual"), ("back", "depth"), ("back", "depth_registered")])
    rfl [10, 20, 30] rfl
  exact h.2.2.2

/-- C9: an empty selector list passes validation, the remote client is
still invoked once with the empty request batch (its answer determines the
outcome), and on a successful answer the call returns the present-but-empty
list — distinct from the absent result returned on errors. -/
theorem C9_empty_selector_list (has_arm rgb : Bool) (client : Client Nat)
    (rs : List Nat) (h : client [] = GetImageResult.ok rs) :
    get_images_by_cameras (SpotImages.init has_arm rgb) client []
      = (Except.ok (some []), []) ∧
    (∀ m : String,
      get_images_by_cameras (SpotImages.init has_arm rgb)
          (failClient m : Client Nat) []
        = (Except.ok none,
           [LogEvent.error
             ("UnsupportedPixelFormatRequestedError. " ++
              "Likely pixel_format is set wrong for some image request")])) ∧
    some ([] : List (ImageEntry Nat)) ≠ none := by
  refine ⟨?_, fun m => rfl, by simp⟩
  simp only [get_images_by_cameras, buildLoop, h, assembleEntries]

/-- C9 witness: with a client answering the empty batch with no responses,
the empty selector list returns the present-but-empty list. -/
theorem C9_witness :
    get_images_by_cameras (SpotImages.init false true)
        (constClient ([] : List Nat)) []
      = (Except.ok (some []), []) :=
  (C9_empty_selector_list false true (constClient []) [] rfl).1

end SpotImagesModel
namespace SpotImagesModel

/-- C2 witness: a concrete body accessor under the failing client returns
an empty result and one logged error. -/
theorem C2_witness :
    get_frontleft_rgb_image (SpotImages.init false true)
        (failClient "bad pixel format" : Client Nat)
      = (Except.ok none, [LogEvent.error "bad pixel format"]) :=
  (C2_error_policy false true "bad pixel format" [] []).1

/-- C5 witness: with the rgb preference off, the construction log is the
five greyscale-switch events, one per body camera. -/
theorem C5_witness :
    (SpotImages.init true false).init_log =
      [LogEvent.info "Switching frontleft:visual to greyscale image format.",
       LogEvent.info "Switching frontright:visual to greyscale image format.",
       LogEvent.info "Switching left:visual to greyscale image format.",
       LogEvent.info "Switching right:visual to greyscale image format.",
       LogEvent.info "Switching back:visual to greyscale image format."] :=
  (C5_table_pixel_formats_and_greyscale_log true false).2

/-- C6 witness: with an arm the visual catalog list has six entries and the
hand row is present. -/
theorem C6_witness :
    (SpotImages.init true true).camera_image_requests.length = 6 ∧
    ((SpotImages.init true true).image_requests_by_camera.lookup "hand").isSome
      = true :=
  ⟨(C6_catalog_sizes true true).1, (C6_catalog_sizes true true).2.2.2⟩

/-- C7 witness: six concrete responses land in the six named slots in
order. -/
theorem C7_witness :
    get_images (SpotImages.init true true) (constClient [1, 2, 3, 4, 5, 6]) []
      = (Except.ok (some (Bundle.withHand ⟨1, 2, 3, 4, 5, 6⟩)), []) :=
  (C7_bundle_positional true [] 1 2 3 4 5 6).1

/-- C8 witness: with an arm, the hand accessor returns the first response
of a concrete response list. -/
theorem C8_witness :
    get_hand_rgb_image (SpotImages.init true true) (constClient [7])
      = (Except.ok (some 7), []) :=
  (C8_hand_accessor true 7 [] (constClient [7]) (constClient [7])).2.2

/-- C10 witness: the visual catalog list is the same under either setting
of the rgb preference. -/
theorem C10_witness :
    (SpotImages.init false true).camera_image_requests
      = (SpotImages.init false false).camera_image_requests :=
  (C10_rgb_flag_only_affects_table false (constClient [])).1

end SpotImagesModel
